import Mathlib

/-!
Shallow embedding of the `wyoming-azure-keyword` repository, for checking its
natural-language specification against the code.

The repository contains two divergent designs:
* `wyoming_azure_keyword/__main__.py` — the subprocess-based design:
  `AzureWakeWordHandler` supervises a detection worker subprocess
  (`wyoming_azure_keyword/worker.py`, function `worker_main`) connected by a
  multiprocessing audio queue and result queue.
* `wyoming_azure_keyword/handler.py` + `azure_speech_keyword.py` — the
  in-process design (`AzureSpeechKeywordEventHandler` driving
  `AzureSpeechKeyword`).

The external Azure Speech SDK engine is opaque; it is parameterised here by
its observable outcomes (whether model loading raises, whether the
`recognized` callback fired with a keyword, whether `recognition_done` is
ever set).
-/

/-- An audio frame: raw PCM bytes, modelled as a list of byte values. -/
abbrev Frame := List Nat

/-- The audio format dictionary built by `handle_audio_start` in
`__main__.py` (`{"rate": ..., "width": ..., "channels": ...}`). -/
structure AudioFmt where
  rate : Nat
  width : Nat
  channels : Nat
deriving DecidableEq, Repr

/-! ## Worker process (`wyoming_azure_keyword/worker.py`, `worker_main`) -/

/-- A message on the worker's audio inbox (`audio_queue`): either an audio
frame or the `None` stop sentinel. -/
inductive InMsg where
  | frame (f : Frame)
  | sentinel
deriving DecidableEq, Repr

/-- A message the worker can put on its result outbox (`result_queue`):
`{"status": "detected", "text": ...}` from the `recognized` callback, or
`{"status": "error", "err": ...}` from the outer exception handler.
(`worker.py` has no constructor for a "not detected" message.) -/
inductive WorkerMsg where
  | detected (text : String)
  | error (cause : String)
deriving DecidableEq, Repr

/-- The observable outcome of one `worker_main` run: the messages written to
`result_queue`, the frames written to the engine's push stream (in write
order), and how many messages were read off `audio_queue`. -/
structure WorkerRun where
  outbox : List WorkerMsg
  pushed : List Frame
  reads : Nat
deriving DecidableEq, Repr

/-- The `while True` drain loop of `worker_main` (worker.py lines 65–74):
each `audio_queue.get` either yields a frame (written to the push stream),
yields the `None` sentinel (break), or raises because the channel is closed
(break, modelled as the end of the inbox list). Returns the frames pushed
and the number of successful reads. -/
def workerLoop : List InMsg → List Frame → Nat → List Frame × Nat
  | [], pushed, reads => (pushed, reads)
  | .sentinel :: _, pushed, reads => (pushed, reads + 1)
  | .frame f :: rest, pushed, reads => workerLoop rest (pushed ++ [f]) (reads + 1)

/-- `worker_main` (worker.py lines 21–100). Parameters for the opaque engine:
`modelLoadExc` is `some e` when `speechsdk.KeywordRecognitionModel(model_path)`
(or the subsequent stream/recognizer construction) raises with repr `e`;
`recognized` is `some t` when the `recognized` callback fired with a
`RecognizedKeyword` result of text `t` during the run. On a load exception
the outer `except` writes a single error message and the drain loop is never
entered; otherwise the loop drains the inbox, the stream is closed, and the
outbox holds exactly the message the callback wrote, if any. -/
def worker_main (modelLoadExc : Option String) (recognized : Option String)
    (inbox : List InMsg) : WorkerRun :=
  match modelLoadExc with
  | some e => ⟨[.error e], [], 0⟩
  | none =>
      let (pushed, reads) := workerLoop inbox [] 0
      ⟨(recognized.map WorkerMsg.detected).toList, pushed, reads⟩

/-! ## Supervisor / subprocess handler (`__main__.py`, `AzureWakeWordHandler`) -/

/-- The worker-process slot of the handler: its spawn generation (to tell a
fresh process from a spent one) and whether the OS process is still alive. -/
structure Worker where
  gen : Nat
  alive : Bool
deriving DecidableEq, Repr

/-- The mutable state of `AzureWakeWordHandler`:
`worker_process`, `audio_queue` (with its queued frames), `result_queue`,
`check_result_task`, `restart_timer_task`, `stream_format`, and the format
that was passed to the currently spawned worker. `nextGen` numbers process
spawns. -/
structure SupState where
  worker : Option Worker
  audioQueue : Option (List Frame)
  resultQueue : Bool
  checkTask : Bool
  timerTask : Bool
  streamFormat : Option AudioFmt
  workerFormat : Option AudioFmt
  nextGen : Nat
deriving DecidableEq, Repr

/-- The fresh handler state built by `__init__` (lines 43–50): no process, no
queues, no tasks, no recorded stream format. -/
def initState : SupState :=
  ⟨none, none, false, false, false, none, none, 0⟩

/-- `self.restart_interval = 30` (line 50): the periodic-restart interval in
seconds. -/
def restart_interval : Nat := 30

/-- `process.join(timeout=2)` in `stop_detection_subprocess` (line 126): the
bounded join wait, in seconds, before the subprocess is force-terminated. -/
def stopJoinTimeout : Nat := 2

/-- External side effects performed by `stop_detection_subprocess`: putting
the `None` sentinel on the audio queue, joining (with `stopJoinTimeout`) and
if needed terminating the worker process, and closing each queue. -/
inductive Eff where
  | sentinel
  | joinWorker (gen : Nat)
  | closeAudioQ
  | closeResultQ
deriving DecidableEq, Repr

/-- `stop_detection_subprocess` (lines 99–145): cancels both tasks, clears
the process and queue fields, then — on the saved local copies — sends the
sentinel if there was an audio queue, joins/terminates the process if it was
alive, and closes each queue that existed. Every side-effecting step is
wrapped in `try/except`, so the function never raises. -/
def stop_detection_subprocess (s : SupState) : SupState × List Eff :=
  (⟨none, none, false, false, false, s.streamFormat, s.workerFormat, s.nextGen⟩,
    (if s.audioQueue.isSome then [Eff.sentinel] else []) ++
    (match s.worker with
      | some w => if w.alive then [Eff.joinWorker w.gen] else []
      | none => []) ++
    (if s.audioQueue.isSome then [Eff.closeAudioQ] else []) ++
    (if s.resultQueue then [Eff.closeResultQ] else []))

/-- `start_detection_subprocess` (lines 71–97): first calls
`stop_detection_subprocess`, then creates fresh queues, spawns a new worker
process with `(model_path, audio_queue, result_queue, self.stream_format)`,
and (re)creates the result-checking task and the restart-timer task. -/
def start_detection_subprocess (s : SupState) : SupState × List Eff :=
  let (s1, effs) := stop_detection_subprocess s
  (⟨some ⟨s.nextGen, true⟩, some [], true, true, true,
      s1.streamFormat, s1.streamFormat, s.nextGen + 1⟩, effs)

/-- The events driving `AzureWakeWordHandler`: the four client protocol
events dispatched by `handle_event` (lines 54–69), plus the two internal
wake-ups — a worker result read by `_check_detection_results` and the
restart timer firing in `_restart_timer`. -/
inductive MainEvent where
  | describe
  | audioStart (f : AudioFmt)
  | audioChunk (b : Frame)
  | audioStop
  | workerResult (m : WorkerMsg)
  | timerFire
deriving DecidableEq, Repr

/-- The events `__main__.py` can write to the client: the `Info` reply and
the `Detection` wake event. (`NotDetected` exists in the protocol and in the
in-process handler, but `__main__.py` never constructs it.) -/
inductive OutEvent where
  | info
  | detection (name : String)
  | notDetected
deriving DecidableEq, Repr

/-- A terminal event per the spec: `Detection` or `NotDetected`. -/
def isTerminalEvent : OutEvent → Bool
  | .info => false
  | .detection _ => true
  | .notDetected => true

/-- Log records emitted along a step, by level. -/
inductive LogEvent where
  | debug
  | infoLog
  | warn
  | errorLog
deriving DecidableEq, Repr

/-- The result of one handler step: the new state, the events written to the
client, the log records emitted, and the subprocess/queue side effects. -/
structure StepOut where
  state : SupState
  out : List OutEvent
  logs : List LogEvent
  effs : List Eff
deriving DecidableEq, Repr

/-- One step of `AzureWakeWordHandler` (`kw` is `cli_args.keyword_name`):
* `Describe` → `handle_describe` writes the info event (lines 201–204);
* `AudioStart f` → `handle_audio_start` records `stream_format := f` and
  calls `start_detection_subprocess` (lines 206–221);
* `AudioChunk b` → `handle_audio_chunk` enqueues the chunk only when
  `self.audio_queue and self.worker_process and self.worker_process.is_alive()`
  (lines 223–238); otherwise the frame is silently dropped — no log, no
  event, no exception;
* `AudioStop` → `handle_audio_stop` calls `stop_detection_subprocess` and
  writes nothing (lines 240–245);
* a worker result, read by `_check_detection_results` only while the check
  task runs (lines 157–188): on `"detected"` it writes a `Detection` event
  named `keyword_name` and restarts the subprocess; on `"error"` it only
  logs an error;
* the restart timer firing (lines 147–155): only a live (uncancelled) timer
  task restarts the subprocess; a cancelled one does nothing. -/
def handlerStep (kw : String) (s : SupState) : MainEvent → StepOut
  | .describe => ⟨s, [.info], [.debug], []⟩
  | .audioStart f =>
      let s0 : SupState :=
        ⟨s.worker, s.audioQueue, s.resultQueue, s.checkTask, s.timerTask,
          some f, s.workerFormat, s.nextGen⟩
      let (s1, effs) := start_detection_subprocess s0
      ⟨s1, [], [.debug, .infoLog], effs⟩
  | .audioChunk b =>
      match s.audioQueue, s.worker with
      | some q, some w =>
          if w.alive then
            ⟨⟨s.worker, some (q ++ [b]), s.resultQueue, s.checkTask,
                s.timerTask, s.streamFormat, s.workerFormat, s.nextGen⟩,
              [], [], []⟩
          else ⟨s, [], [], []⟩
      | _, _ => ⟨s, [], [], []⟩
  | .audioStop =>
      let (s1, effs) := stop_detection_subprocess s
      ⟨s1, [], [.debug], effs⟩
  | .workerResult m =>
      if s.checkTask then
        match m with
        | .detected _ =>
            let (s1, effs) := start_detection_subprocess s
            ⟨s1, [.detection kw], [.infoLog], effs⟩
        | .error _ => ⟨s, [], [.errorLog], []⟩
      else ⟨s, [], [], []⟩
  | .timerFire =>
      if s.timerTask then
        let (s1, effs) := start_detection_subprocess s
        ⟨s1, [], [.infoLog], effs⟩
      else ⟨s, [], [], []⟩

/-- Run the handler over a sequence of events, collecting the events written
to the client. -/
def handlerRun (kw : String) (s : SupState) : List MainEvent → SupState × List OutEvent
  | [] => (s, [])
  | e :: rest =>
      let r := handlerStep kw s e
      let (s', out) := handlerRun kw r.state rest
      (s', r.out ++ out)

/-! ## In-process finalize (`azure_speech_keyword.py`, `get_results`) -/

/-- The wait loop of `get_results` (azure_speech_keyword.py lines 101–103):
`while not self.recognition_done: time.sleep(1)`. `done t` says whether the
`recognized` callback has set `recognition_done` by second `t`. The loop has
no timeout in the source; here it is run with `fuel` iterations and reports
whether it exited within them. -/
def waitRecognition (done : Nat → Bool) : Nat → Nat → Bool
  | 0, _ => false
  | fuel + 1, t => if done t then true else waitRecognition done fuel (t + 1)

/-- Whether `get_results` gets past its wait loop within `n` seconds of
entering it, given the engine's `recognition_done` behaviour `done`. -/
def getResultsReturnsWithin (done : Nat → Bool) (n : Nat) : Bool :=
  waitRecognition done n 0

/-! ## Memory Watchdog (spec §4.5) -/

/-- Modelled from the spec: the Memory Watchdog component of §4.5 has no
implementation under `src/` (`debug.py` only prints memory usage), so its
sampling policy is taken from the spec's words: after each completed
detection cycle the watchdog samples host memory utilization; a sample above
75% schedules a delayed graceful process exit 10 seconds later, cancelled if
the next sample is at or below the threshold; a sample above 90% schedules a
near-immediate exit 1 second later that is never cancelled. The state holds
the current time and the pending exit deadlines. -/
structure WatchdogState where
  now : Nat
  delayedExitAt : Option Nat
  immediateExitAt : Option Nat
deriving DecidableEq, Repr

/-- Modelled from the spec: the soft (graceful-exit) utilization threshold,
in percent. -/
def wdSoftThreshold : Nat := 75

/-- Modelled from the spec: the hard (near-immediate-exit) utilization
threshold, in percent. -/
def wdHardThreshold : Nat := 90

/-- Modelled from the spec: the delay before a graceful exit fires. -/
def wdDelayedGrace : Nat := 10

/-- Modelled from the spec: the delay before a near-immediate exit fires. -/
def wdImmediateGrace : Nat := 1

/-- Modelled from the spec: process one utilization sample. Above the soft
threshold, (re)schedule the delayed exit; at or below it, cancel any pending
delayed exit. Above the hard threshold, additionally schedule the
near-immediate exit; a pending near-immediate exit is never cancelled. -/
def wdSample (s : WatchdogState) (util : Nat) : WatchdogState :=
  let s1 : WatchdogState :=
    if util > wdSoftThreshold then
      ⟨s.now, some (s.now + wdDelayedGrace), s.immediateExitAt⟩
    else
      ⟨s.now, none, s.immediateExitAt⟩
  if util > wdHardThreshold then
    ⟨s1.now, s1.delayedExitAt, some (s1.now + wdImmediateGrace)⟩
  else s1

/-- Modelled from the spec: a sample observed at absolute time `t`. -/
def wdObserve (s : WatchdogState) (t util : Nat) : WatchdogState :=
  wdSample ⟨t, s.delayedExitAt, s.immediateExitAt⟩ util

/-- Modelled from the spec: fold a list of timed samples through the
watchdog. -/
def wdRun (s : WatchdogState) : List (Nat × Nat) → WatchdogState
  | [] => s
  | (t, u) :: rest => wdRun (wdObserve s t u) rest

/-! ## Helper lemmas -/

/-- Draining an inbox of `frames` followed by the stop sentinel pushes
exactly `frames` after the accumulator and reads every message. -/
lemma workerLoop_append (frames : List Frame) :
    ∀ (acc : List Frame) (n : Nat),
      workerLoop (frames.map InMsg.frame ++ [InMsg.sentinel]) acc n
        = (acc ++ frames, n + frames.length + 1) := by
  induction frames with
  | nil => intro acc n; simp [workerLoop]
  | cons f rest ih =>
      intro acc n
      simp only [List.map_cons, List.cons_append, workerLoop, List.append_eq]
      rw [ih]
      simp only [List.append_assoc, List.singleton_append, List.length_cons]
      have harith : n + 1 + rest.length + 1 = n + (rest.length + 1) + 1 := by omega
      rw [harith]

/-- Unfolding one step of `handlerRun`. -/
lemma handlerRun_cons (kw : String) (s : SupState) (e : MainEvent)
    (l : List MainEvent) :
    handlerRun kw s (e :: l)
      = ((handlerRun kw (handlerStep kw s e).state l).1,
          (handlerStep kw s e).out ++ (handlerRun kw (handlerStep kw s e).state l).2) := by
  simp [handlerRun]

/-- An audio chunk never causes the subprocess handler to write an event. -/
lemma handlerStep_chunk_out (kw : String) (s : SupState) (b : Frame) :
    (handlerStep kw s (.audioChunk b)).out = [] := by
  obtain ⟨w, q, rq, ct, tt, sf, wf, g⟩ := s
  cases q <;> cases w
  · rfl
  · rfl
  · rfl
  · simp only [handlerStep]
    split <;> rfl

/-- A run of audio chunks followed by `AudioStop` writes no event at all. -/
lemma handlerRun_chunks_stop_out (kw : String) :
    ∀ (cs : List Frame) (s : SupState),
      (handlerRun kw s (cs.map MainEvent.audioChunk ++ [MainEvent.audioStop])).2 = [] := by
  intro cs
  induction cs with
  | nil =>
      intro s
      simp [handlerRun, handlerStep]
  | cons c rest ih =>
      intro s
      simp only [List.map_cons, List.cons_append, handlerRun_cons]
      rw [handlerStep_chunk_out, ih]
      rfl

/-- The wait loop of `get_results` never exits when `recognition_done` is
never set, whatever fuel it is given. -/
lemma waitRecognition_never (done : Nat → Bool) (h : ∀ u, done u = false) :
    ∀ (n t : Nat), waitRecognition done n t = false := by
  intro n
  induction n with
  | zero => intro t; rfl
  | succ k ih => intro t; simp [waitRecognition, h t, ih]

/-! ## Claim theorems -/

/-- C2, counterexample: a worker run whose engine starts, that receives only
the stop sentinel and recognizes nothing, writes ZERO messages to the result
outbox — refuting "exactly one terminal message ... never zero messages"
(`worker.py` has no `NotDetected` write). -/
theorem C2_counterexample : (worker_main none none [InMsg.sentinel]).outbox = [] := rfl

/-- C2 (amended): for every run of the detection worker, at most one terminal
message is written to the result outbox — `Detected{text}` when the
`recognized` callback fired, `Error{cause}` when engine startup raised — and
the outbox is empty exactly when startup succeeded and no keyword was
recognized; `NotDetected` is never written. -/
theorem C2_worker_at_most_one_message (exc recog : Option String)
    (inbox : List InMsg) :
    (worker_main exc recog inbox).outbox.length ≤ 1
    ∧ ((worker_main exc recog inbox).outbox = [] ↔ exc = none ∧ recog = none) := by
  cases exc <;> cases recog <;> simp [worker_main]

set_option maxRecDepth 8000

/-- C3, counterexample: with an engine that never sets `recognition_done`,
`get_results` has still not returned after 600 seconds — refuting the
claimed bounded wait of about 15–20 seconds plus a termination grace period
(its wait loop has no timeout at all). -/
theorem C3_counterexample :
    getResultsReturnsWithin (fun _ => false) 600 = false := by decide

/-- C3 (amended): the subprocess stop path is bounded — the worker is joined
with a 2-second timeout and then force-terminated — but the in-process
finalize `get_results` enforces no bound: when the engine never sets
`recognition_done`, its wait loop does not exit within any number of
seconds, hanging the session indefinitely. -/
theorem C3_finalize_wait_unbounded :
    (∀ (done : Nat → Bool) (n : Nat), (∀ u, done u = false) →
        getResultsReturnsWithin done n = false)
    ∧ stopJoinTimeout = 2 := by
  refine ⟨fun done n h => ?_, rfl⟩
  exact waitRecognition_never done h n 0

/-- C3, witness for the amended theorem at a concrete never-responding
engine and bound. -/
theorem C3_witness :
    getResultsReturnsWithin (fun _ => false) 25 = false ∧ stopJoinTimeout = 2 :=
  ⟨C3_finalize_wait_unbounded.1 (fun _ => false) 25 (fun _ => rfl),
    C3_finalize_wait_unbounded.2⟩

/-- C7: from any supervisor state, the first `stop_detection_subprocess`
call clears the worker handle, both queues and both tasks, and a second call
is a no-op — it returns the same (already stopped) state and performs no
side effect (no sentinel, no join, no queue close), so nothing is
double-freed; totality of the function models that it never raises. -/
theorem C7_idempotent_shutdown (s : SupState) :
    (stop_detection_subprocess s).1.worker = none
    ∧ (stop_detection_subprocess s).1.audioQueue = none
    ∧ (stop_detection_subprocess s).1.resultQueue = false
    ∧ (stop_detection_subprocess s).1.checkTask = false
    ∧ (stop_detection_subprocess s).1.timerTask = false
    ∧ stop_detection_subprocess (stop_detection_subprocess s).1
        = ((stop_detection_subprocess s).1, []) := by
  simp [stop_detection_subprocess]

/-- C10: when the engine cannot start (model construction raises `e`), the
worker writes the single message `Error{e}` to the result outbox, pushes
nothing, and exits having read zero messages from the audio inbox; and the
supervisor, on reading an error result, only logs it — the handler state is
untouched, no event reaches the client, and no process-level effect occurs,
so the failure is fatal only to that detection attempt. -/
theorem C10_model_load_error (e : String) (recog : Option String)
    (inbox : List InMsg) (kw : String) (s : SupState) :
    worker_main (some e) recog inbox = ⟨[.error e], [], 0⟩
    ∧ (handlerStep kw s (.workerResult (.error e))).state = s
    ∧ (handlerStep kw s (.workerResult (.error e))).out = []
    ∧ (handlerStep kw s (.workerResult (.error e))).effs = [] := by
  refine ⟨rfl, ?_, ?_, ?_⟩ <;>
    · simp only [handlerStep]
      split <;> rfl

/-- The guard of `handle_audio_chunk` (line 225):
`self.audio_queue and self.worker_process and self.worker_process.is_alive()`. -/
def chunkDeliverable (s : SupState) : Bool :=
  s.audioQueue.isSome &&
    (match s.worker with
      | some w => w.alive
      | none => false)

/-- Iterate the restart-timer firing `n` times. -/
def iterTimerFire (kw : String) : Nat → SupState → SupState
  | 0, s => s
  | n + 1, s => iterTimerFire kw n (handlerStep kw s .timerFire).state

/-- One firing of a live restart timer restarts the subprocess: fresh
worker, fresh queues, both tasks rearmed, the stream format carried over,
and nothing written to the client. -/
lemma handlerStep_timer_live (kw : String) (s : SupState) (h : s.timerTask = true) :
    handlerStep kw s .timerFire
      = ⟨⟨some ⟨s.nextGen, true⟩, some [], true, true, true,
            s.streamFormat, s.streamFormat, s.nextGen + 1⟩,
          [], [.infoLog], (stop_detection_subprocess s).2⟩ := by
  simp [handlerStep, h, start_detection_subprocess, stop_detection_subprocess]

/-- Closed form of `n + 1` firings of a live restart timer. -/
lemma iterTimerFire_succ_live (kw : String) :
    ∀ (n : Nat) (s : SupState), s.timerTask = true →
      iterTimerFire kw (n + 1) s
        = ⟨some ⟨s.nextGen + n, true⟩, some [], true, true, true,
            s.streamFormat, s.streamFormat, s.nextGen + n + 1⟩ := by
  intro n
  induction n with
  | zero =>
      intro s h
      show iterTimerFire kw 0 (handlerStep kw s .timerFire).state = _
      rw [handlerStep_timer_live kw s h]
      rfl
  | succ k ih =>
      intro s h
      show iterTimerFire kw (k + 1) (handlerStep kw s .timerFire).state = _
      rw [handlerStep_timer_live kw s h, ih _ rfl]
      have harith : s.nextGen + 1 + k = s.nextGen + (k + 1) := by omega
      rw [harith]

/-- Enqueueing a run of chunks onto a live worker's audio queue appends them
in arrival order and writes nothing to the client. -/
lemma handlerRun_chunks_live (kw : String) (g : Nat) (rq ct tt : Bool)
    (sf wf : Option AudioFmt) (ng : Nat) :
    ∀ (cs q : List Frame),
      handlerRun kw ⟨some ⟨g, true⟩, some q, rq, ct, tt, sf, wf, ng⟩
          (cs.map MainEvent.audioChunk)
        = (⟨some ⟨g, true⟩, some (q ++ cs), rq, ct, tt, sf, wf, ng⟩, []) := by
  intro cs
  induction cs with
  | nil => intro q; simp [handlerRun]
  | cons c rest ih =>
      intro q
      simp only [List.map_cons, handlerRun_cons]
      have hstep : handlerStep kw ⟨some ⟨g, true⟩, some q, rq, ct, tt, sf, wf, ng⟩
          (.audioChunk c)
          = ⟨⟨some ⟨g, true⟩, some (q ++ [c]), rq, ct, tt, sf, wf, ng⟩, [], [], []⟩ := rfl
      rw [hstep, ih (q ++ [c])]
      simp

/-- `wdSample` never discards a pending near-immediate exit. -/
lemma wdSample_keeps_immediate (s : WatchdogState) (u : Nat)
    (h : s.immediateExitAt.isSome = true) :
    ((wdSample s u).immediateExitAt).isSome = true := by
  by_cases h1 : u > wdHardThreshold <;> by_cases h2 : u > wdSoftThreshold <;>
    simp [wdSample, h1, h2, h]

/-- No sequence of further samples discards a pending near-immediate exit. -/
lemma wdRun_keeps_immediate :
    ∀ (l : List (Nat × Nat)) (s : WatchdogState),
      s.immediateExitAt.isSome = true → ((wdRun s l).immediateExitAt).isSome = true := by
  intro l
  induction l with
  | nil => intro s h; exact h
  | cons p rest ih =>
      intro s h
      exact ih _ (wdSample_keeps_immediate _ p.2 h)

/-- C1, counterexample: on the subprocess handler (`AzureWakeWordHandler`,
the design `__main__.py` actually runs), the cycle AudioStart → AudioStop
with no detection emits ZERO terminal events — `handle_audio_stop` only
stops the subprocess and `NotDetected` is never constructed — refuting
"exactly one terminal event ... emitted after the AudioStop event". -/
theorem C1_counterexample :
    ((handlerRun "kw" initState
        [MainEvent.audioStart ⟨16000, 2, 1⟩, MainEvent.audioStop]).2.filter
        isTerminalEvent) = [] := by decide

/-- C1 (amended): on the subprocess handler, a full
AudioStart → N AudioChunks → AudioStop cycle by itself emits no terminal
event at all (in particular nothing at AudioStop); terminal events arise
only from worker detection reports, each of which — while the
result-checking task is live — emits exactly one `Detection` at the moment
the report is read, which may be before AudioStop. -/
theorem C1_terminal_event_policy (kw : String) (f : AudioFmt) (cs : List Frame) :
    ((handlerRun kw initState
        (MainEvent.audioStart f :: (cs.map MainEvent.audioChunk
          ++ [MainEvent.audioStop]))).2.filter isTerminalEvent) = []
    ∧ ∀ (s : SupState) (t : String), s.checkTask = true →
        (handlerStep kw s (.workerResult (.detected t))).out
          = [OutEvent.detection kw] := by
  constructor
  · rw [handlerRun_cons]
    have h1 : (handlerStep kw initState (.audioStart f)).out = [] := rfl
    rw [h1, handlerRun_chunks_stop_out]
    rfl
  · intro s t h
    simp [handlerStep, h, start_detection_subprocess]

/-- C1, witness: a detection report read in a live post-start state emits
exactly one `Detection`. -/
theorem C1_witness :
    (handlerStep "kw" (start_detection_subprocess initState).1
        (.workerResult (.detected "hey"))).out = [OutEvent.detection "kw"] :=
  (C1_terminal_event_policy "kw" ⟨16000, 2, 1⟩ []).2
    (start_detection_subprocess initState).1 "hey" rfl

/-- C4 (spec-modelled): every sample above the 75% threshold schedules the
delayed graceful exit 10 seconds out; a sample at or below the threshold
cancels any pending delayed exit; every sample above 90% schedules the
near-immediate exit 1 second out, and that exit stays scheduled regardless
of all subsequent readings. -/
theorem C4_watchdog_policy (s : WatchdogState) (t u : Nat) :
    (u > wdSoftThreshold →
        (wdObserve s t u).delayedExitAt = some (t + wdDelayedGrace))
    ∧ (u ≤ wdSoftThreshold → (wdObserve s t u).delayedExitAt = none)
    ∧ (u > wdHardThreshold →
        (wdObserve s t u).immediateExitAt = some (t + wdImmediateGrace)
        ∧ ∀ rest : List (Nat × Nat),
            ((wdRun (wdObserve s t u) rest).immediateExitAt).isSome = true) := by
  refine ⟨fun h => ?_, fun h => ?_, fun h => ⟨?_, fun rest => ?_⟩⟩
  · by_cases hh : u > wdHardThreshold <;> simp [wdObserve, wdSample, h, hh]
  · have h1 : ¬ u > wdSoftThreshold := by omega
    have h2 : ¬ u > wdHardThreshold := by
      simp only [wdSoftThreshold] at h
      simp only [wdHardThreshold]
      omega
    simp [wdObserve, wdSample, h1, h2]
  · by_cases hs : u > wdSoftThreshold <;> simp [wdObserve, wdSample, h, hs]
  · apply wdRun_keeps_immediate
    by_cases hs : u > wdSoftThreshold <;> simp [wdObserve, wdSample, h, hs]

/-- C4, witness: the spec's own scenario — a reading of 80 schedules the
delayed exit, a following 60 cancels it; a reading of 95 schedules the
near-immediate exit and it survives subsequent readings of 60 and 50. -/
theorem C4_witness :
    (wdObserve ⟨0, none, none⟩ 0 80).delayedExitAt = some 10
    ∧ (wdObserve (wdObserve ⟨0, none, none⟩ 0 80) 5 60).delayedExitAt = none
    ∧ (wdObserve ⟨0, none, none⟩ 0 95).immediateExitAt = some 1
    ∧ ((wdRun (wdObserve ⟨0, none, none⟩ 0 95)
          [(5, 60), (9, 50)]).immediateExitAt).isSome = true :=
  ⟨(C4_watchdog_policy ⟨0, none, none⟩ 0 80).1 (by decide),
    (C4_watchdog_policy (wdObserve ⟨0, none, none⟩ 0 80) 5 60).2.1 (by decide),
    ((C4_watchdog_policy ⟨0, none, none⟩ 0 95).2.2 (by decide)).1,
    ((C4_watchdog_policy ⟨0, none, none⟩ 0 95).2.2 (by decide)).2 [(5, 60), (9, 50)]⟩

/-- C5: while the result-checking task is live, a `Detected` report makes
the supervisor emit exactly one `Detection`, tear down the spent worker
(its process is joined/terminated among the step's effects), and immediately
spawn a fresh worker carrying the stream format recorded at the last
AudioStart — with both tasks rearmed — so that a chunk arriving right after
the rotation is enqueued for the new worker without any new AudioStart. -/
theorem C5_detection_rotation (kw : String) (s : SupState) (f : AudioFmt)
    (t : String) (g : Nat) (b : Frame)
    (hfmt : s.streamFormat = some f) (hchk : s.checkTask = true) :
    (handlerStep kw s (.workerResult (.detected t))).out = [OutEvent.detection kw]
    ∧ (handlerStep kw s (.workerResult (.detected t))).state.worker
        = some ⟨s.nextGen, true⟩
    ∧ (handlerStep kw s (.workerResult (.detected t))).state.workerFormat = some f
    ∧ (handlerStep kw s (.workerResult (.detected t))).state.checkTask = true
    ∧ (handlerStep kw s (.workerResult (.detected t))).state.timerTask = true
    ∧ (s.worker = some ⟨g, true⟩ →
        Eff.joinWorker g ∈ (handlerStep kw s (.workerResult (.detected t))).effs)
    ∧ (handlerStep kw
          (handlerStep kw s (.workerResult (.detected t))).state
          (.audioChunk b)).state.audioQueue = some [b] := by
  refine ⟨?_, ?_, ?_, ?_, ?_, fun hw => ?_, ?_⟩ <;>
    simp [handlerStep, hchk, start_detection_subprocess,
      stop_detection_subprocess, hfmt]
  rw [hw]
  simp

/-- C5, witness: in the state reached right after an AudioStart, a detection
report rotates the worker and keeps the format, and the spent worker
(generation 0) is joined. -/
theorem C5_witness :
    (handlerStep "kw" (handlerStep "kw" initState
        (.audioStart ⟨16000, 2, 1⟩)).state
        (.workerResult (.detected "hey"))).out = [OutEvent.detection "kw"]
    ∧ (handlerStep "kw" (handlerStep "kw" initState
        (.audioStart ⟨16000, 2, 1⟩)).state
        (.workerResult (.detected "hey"))).state.workerFormat
        = some ⟨16000, 2, 1⟩
    ∧ Eff.joinWorker 0 ∈ (handlerStep "kw" (handlerStep "kw" initState
        (.audioStart ⟨16000, 2, 1⟩)).state
        (.workerResult (.detected "hey"))).effs := by
  have h := C5_detection_rotation "kw"
    (handlerStep "kw" initState (.audioStart ⟨16000, 2, 1⟩)).state
    ⟨16000, 2, 1⟩ "hey" 0 [7] rfl rfl
  exact ⟨h.1, h.2.2.1, h.2.2.2.2.2.1 rfl⟩

/-- C6: the restart interval is the fixed 30 seconds; a live restart timer
firing emits nothing to the client, replaces the worker with a freshly
spawned one carrying the recorded stream format, and rearms the timer; and
the rotation recurs indefinitely — after any `n + 1` firings the worker is
the `n`-th fresh generation, the timer is still armed, and the format is
still carried over. -/
theorem C6_periodic_rotation (kw : String) (s : SupState)
    (h : s.timerTask = true) :
    restart_interval = 30
    ∧ (handlerStep kw s .timerFire).out = []
    ∧ (handlerStep kw s .timerFire).state.worker = some ⟨s.nextGen, true⟩
    ∧ (handlerStep kw s .timerFire).state.workerFormat = s.streamFormat
    ∧ (handlerStep kw s .timerFire).state.timerTask = true
    ∧ ∀ n : Nat,
        (iterTimerFire kw (n + 1) s).worker = some ⟨s.nextGen + n, true⟩
        ∧ (iterTimerFire kw (n + 1) s).timerTask = true
        ∧ (iterTimerFire kw (n + 1) s).workerFormat = s.streamFormat := by
  rw [handlerStep_timer_live kw s h]
  refine ⟨rfl, rfl, rfl, rfl, rfl, fun n => ?_⟩
  rw [iterTimerFire_succ_live kw n s h]
  exact ⟨rfl, rfl, rfl⟩

/-- C6, witness: from the state right after a subprocess start, two timer
firings leave a generation-2 worker and the interval is 30 seconds. -/
theorem C6_witness :
    restart_interval = 30
    ∧ (iterTimerFire "kw" 2 (start_detection_subprocess initState).1).worker
        = some ⟨2, true⟩
    ∧ (iterTimerFire "kw" 2 (start_detection_subprocess initState).1).timerTask
        = true := by
  have h := C6_periodic_rotation "kw" (start_detection_subprocess initState).1 rfl
  exact ⟨h.1, (h.2.2.2.2.2 1).1, (h.2.2.2.2.2 1).2.1⟩

/-- C8, counterexample: a chunk arriving while the worker process is dead is
dropped — the state is unchanged — but NO log record of any level is
emitted (`handle_audio_chunk`'s guard just skips), refuting "the frame is
dropped and a warning is logged". -/
theorem C8_counterexample :
    (handlerStep "kw"
        ⟨some ⟨0, false⟩, some [], true, true, true, some ⟨16000, 2, 1⟩,
          some ⟨16000, 2, 1⟩, 1⟩ (.audioChunk [1, 2])).logs = []
    ∧ (handlerStep "kw"
        ⟨some ⟨0, false⟩, some [], true, true, true, some ⟨16000, 2, 1⟩,
          some ⟨16000, 2, 1⟩, 1⟩ (.audioChunk [1, 2])).state
        = ⟨some ⟨0, false⟩, some [], true, true, true, some ⟨16000, 2, 1⟩,
            some ⟨16000, 2, 1⟩, 1⟩ :=
  ⟨rfl, rfl⟩

/-- C8 (amended): the AudioChunk path never raises and never writes an
event: when the inbox is unavailable (no queue, no worker process, or a dead
one — the guard `chunkDeliverable`), the step is a complete no-op, silently
dropping the frame without any log; when the worker is live, the frame is
appended to the queue, again with no event and no log. -/
theorem C8_chunk_never_fatal (kw : String) (s : SupState) (b : Frame) :
    (chunkDeliverable s = false →
        handlerStep kw s (.audioChunk b) = ⟨s, [], [], []⟩)
    ∧ (∀ (q : List Frame) (w : Worker),
        s.audioQueue = some q → s.worker = some w → w.alive = true →
          (handlerStep kw s (.audioChunk b)).state.audioQueue = some (q ++ [b])
          ∧ (handlerStep kw s (.audioChunk b)).logs = []
          ∧ (handlerStep kw s (.audioChunk b)).out = []) := by
  obtain ⟨w, q, rq, ct, tt, sf, wf, g⟩ := s
  constructor
  · intro h
    cases q <;> cases w <;>
      simp_all [chunkDeliverable, handlerStep]
  · intro q' w' hq hw halive
    cases hq
    cases hw
    simp [handlerStep, halive]

/-- C8, witness: in the fresh handler state (worker not yet started) a
chunk is silently dropped; in a live state it is enqueued. -/
theorem C8_witness :
    chunkDeliverable initState = false
    ∧ handlerStep "kw" initState (.audioChunk [9]) = ⟨initState, [], [], []⟩
    ∧ (handlerStep "kw" (start_detection_subprocess initState).1
        (.audioChunk [9])).state.audioQueue = some [[9]] :=
  ⟨rfl, (C8_chunk_never_fatal "kw" initState [9]).1 rfl,
    ((C8_chunk_never_fatal "kw" (start_detection_subprocess initState).1 [9]).2
      [] ⟨0, true⟩ rfl rfl rfl).1⟩

/-- C9: frames stream through in arrival order end to end — a run of chunks
fed to a freshly started worker's queue lands in the queue in exactly the
client's order, and the worker drains its inbox writing exactly that frame
sequence, in order, to the engine's push stream; and one worker lifetime
puts at most one message on the result outbox. -/
theorem C9_frame_order (kw : String) (s0 : SupState) (cs : List Frame)
    (recog : Option String) :
    (handlerRun kw (start_detection_subprocess s0).1
        (cs.map MainEvent.audioChunk)).1.audioQueue = some cs
    ∧ (worker_main none recog (cs.map InMsg.frame ++ [InMsg.sentinel])).pushed = cs
    ∧ (worker_main none recog
        (cs.map InMsg.frame ++ [InMsg.sentinel])).outbox.length ≤ 1 := by
  refine ⟨?_, ?_, ?_⟩
  · have hs : (start_detection_subprocess s0).1
        = ⟨some ⟨s0.nextGen, true⟩, some [], true, true, true,
            s0.streamFormat, s0.streamFormat, s0.nextGen + 1⟩ := rfl
    rw [hs, handlerRun_chunks_live]
    simp
  · simp [worker_main, workerLoop_append]
  · cases recog <;> simp [worker_main]
